import Mathlib

/-!
Shallow embedding of the case/evidence/violation data store of the
pro se litigation platform (source files: database.py, case_manager.py,
violation_tracker.py, legal_authority.py).

Modelling conventions:
- Each SQLite table is a list of row structures kept in insertion order.
- TEXT columns are Lean String; SQLite is dynamically typed, so values
  that the source reads out of heterogeneous Python dicts are modelled
  as String as well.  INTEGER byte sizes keep their Int type.
- Every call the source makes to datetime.now() or date.today() is an
  explicit String parameter of the embedded operation.
- TEXT PRIMARY KEY constraints are modelled: an insert whose id already
  exists in the table yields an error value, exactly as sqlite3 raises
  IntegrityError.  ORDER BY over ISO-8601 date strings is modelled with
  mergeSort over the lexicographic order on String, which is how SQLite
  compares TEXT values.
- Calls to the external AI collaborator (SambanovaClient.analyze_legal_text)
  are modelled by passing the returned free text as a String parameter.
-/

/-- Python substring containment: needle in hay. -/
def substrB (needle hay : String) : Bool :=
  hay.toList.tails.any (fun t => needle.toList.isPrefixOf t)

/-- Python str.lower(): lowercase every character (structural reimplementation
of String.toLower so that terms reduce). -/
def pyLower (s : String) : String :=
  String.mk (s.data.map Char.toLower)

/-- Accumulator loop for pySplit: walk the characters, closing the current
word at each whitespace character and dropping empty words. -/
def splitWhitespaceAux : List Char → List Char → List String
  | [], acc => if acc.isEmpty then [] else [String.mk acc.reverse]
  | c :: cs, acc =>
      if c.isWhitespace then
        (if acc.isEmpty then [] else [String.mk acc.reverse]) ++ splitWhitespaceAux cs []
      else
        splitWhitespaceAux cs (c :: acc)

/-- Python str.split() with no argument: split on whitespace runs, dropping
empty pieces. -/
def pySplit (s : String) : List String :=
  splitWhitespaceAux s.data []

/-- Accumulator loop for splitLines. -/
def splitLinesAux : List Char → List Char → List String
  | [], acc => [String.mk acc.reverse]
  | c :: cs, acc =>
      if c = '\n' then String.mk acc.reverse :: splitLinesAux cs []
      else splitLinesAux cs (c :: acc)

/-- Python s.split(backslash n): cut at every newline, keeping empty pieces. -/
def splitLines (s : String) : List String :=
  splitLinesAux s.data []

/-- Python str.strip(): drop leading and trailing whitespace. -/
def pyStrip (s : String) : String :=
  String.mk (((s.data.dropWhile Char.isWhitespace).reverse.dropWhile Char.isWhitespace).reverse)

/-- A Python dict with string keys and values, as an association list. -/
def Dict : Type := List (String × String)

instance : DecidableEq Dict := by
  unfold Dict
  infer_instance

/-- Python d.get(k, dflt). -/
def dictGet (d : Dict) (k dflt : String) : String :=
  match List.find? (fun p => p.1 = k) d with
  | some p => p.2
  | none => dflt

/-- Python truthiness of a dict: empty dicts are falsy. -/
def dictTruthy (d : Dict) : Bool :=
  d ≠ ([] : List (String × String))

/-- The default value of the analysis_data column of case_files. -/
def emptyJsonObject : String := "\x7b\x7d"

/-- Row of the cases table (database.py keeps further columns with defaults;
only the columns the case_manager.py operations touch are carried). -/
structure CaseRow where
  id : String
  name : String
  case_type : String
  created_date : String
  last_modified : String
  status : String
  metadata : String
deriving DecidableEq, Repr

/-- Row of the case_files table. -/
structure CaseFileRow where
  id : String
  case_id : String
  filename : String
  file_type : String
  file_size : Int
  upload_date : String
  file_path : Option String
  analysis_data : String
deriving DecidableEq, Repr

/-- Row of the case_documents table. -/
structure CaseDocRow where
  id : String
  case_id : String
  document_type : String
  title : String
  content : String
  created_date : String
  version : Int
deriving DecidableEq, Repr

/-- Row of the violations table as created by Database._create_all_tables
(the live schema, since Database() runs before ViolationTracker). -/
structure ViolationRow where
  id : String
  case_id : String
  violation_type : String
  legal_codes : String
  description : String
  date_occurred : String
  person_involved : String
  damages_estimate : String
  created_date : String
  last_updated : String
deriving DecidableEq, Repr

/-- Row of the violation_evidence table (violation_tracker.py schema). -/
structure EvidenceRow where
  id : String
  violation_id : String
  evidence_type : String
  description : String
  file_path : String
  credibility_score : String
  created_date : String
deriving DecidableEq, Repr

/-- Row of the violation_timeline table (violation_tracker.py schema). -/
structure TimelineRow where
  id : String
  violation_id : String
  event_date : String
  event_description : String
  supporting_evidence : String
  created_date : String
deriving DecidableEq, Repr

/-- A legal_authorities row as _add_authority_to_database tries to write it
(the value tuple of its INSERT OR REPLACE statement). -/
structure AuthorityRow where
  id : String
  citation : String
  title : String
  summary : String
  source_url : String
  verification_status : String
  authority_type : String
  jurisdiction : String
  relevance_score : String
  last_verified : String
  created_date : String
deriving DecidableEq, Repr

/-- The persistent store: one structure per SQLite table the claims touch,
each a list of rows in insertion order. -/
structure DB where
  cases : List CaseRow
  case_files : List CaseFileRow
  case_documents : List CaseDocRow
  violations : List ViolationRow
  violation_evidence : List EvidenceRow
  violation_timeline : List TimelineRow
  legal_authorities : List AuthorityRow
deriving DecidableEq, Repr

/-- The aggregate returned by CaseManager.get_case: the case row joined
with its files and documents. -/
structure CaseAgg where
  case_row : CaseRow
  files : List CaseFileRow
  documents : List CaseDocRow
deriving DecidableEq, Repr

/-- CaseManager.get_case: SELECT the case row by id; None when absent;
otherwise join the case_files and case_documents rows with that case_id. -/
def getCase (db : DB) (caseId : String) : Option CaseAgg :=
  match List.find? (fun c => c.id = caseId) db.cases with
  | none => none
  | some c =>
      some { case_row := c,
             files := db.case_files.filter (fun f => f.case_id = caseId),
             documents := db.case_documents.filter (fun d => d.case_id = caseId) }

/-- ORDER BY last_modified DESC over the cases table. -/
def orderCasesByLastModifiedDesc (rows : List CaseRow) : List CaseRow :=
  rows.mergeSort (fun a b => b.last_modified ≤ a.last_modified)

/-- CaseManager.get_all_cases: SELECT * FROM cases ORDER BY last_modified DESC. -/
def getAllCases (db : DB) : List CaseRow :=
  orderCasesByLastModifiedDesc db.cases

/-- CaseManager.delete_case: DELETE case_files rows, then case_documents rows
with the given case_id, then the cases row; the returned flag is
cursor.rowcount of the final DELETE (on cases) being positive. -/
def deleteCase (db : DB) (caseId : String) : Bool × DB :=
  let files' := db.case_files.filter (fun f => ¬ f.case_id = caseId)
  let docs' := db.case_documents.filter (fun d => ¬ d.case_id = caseId)
  let deletedCases := db.cases.filter (fun c => c.id = caseId)
  let cases' := db.cases.filter (fun c => ¬ c.id = caseId)
  (decide (deletedCases.length > 0),
   { db with cases := cases', case_files := files', case_documents := docs' })

/-- CaseManager.add_file_to_case: INSERT the case_files row (no check that the
case exists), then UPDATE cases SET last_modified where id matches, then
commit and return the file id.  uploadTs and modifiedTs are the two
datetime.now() calls; fileId is the generated uuid4.  The insert fails only
on a primary key collision of the file id. -/
def addFileToCase (db : DB) (caseId filename fileType : String) (fileSize : Int)
    (filePath : Option String) (fileId uploadTs modifiedTs : String) :
    Except String (String × DB) :=
  if db.case_files.any (fun f => f.id = fileId) then
    Except.error "UNIQUE constraint failed: case_files.id"
  else
    let row : CaseFileRow :=
      { id := fileId, case_id := caseId, filename := filename,
        file_type := fileType, file_size := fileSize, upload_date := uploadTs,
        file_path := filePath, analysis_data := emptyJsonObject }
    let cases' := db.cases.map
      (fun c => if c.id = caseId then { c with last_modified := modifiedTs } else c)
    Except.ok (fileId, { db with case_files := db.case_files ++ [row], cases := cases' })

/-- ORDER BY upload_date DESC over case_files rows. -/
def orderFilesByUploadDateDesc (rows : List CaseFileRow) : List CaseFileRow :=
  rows.mergeSort (fun a b => b.upload_date ≤ a.upload_date)

/-- CaseManager.get_case_files: SELECT * FROM case_files WHERE case_id = ?
ORDER BY upload_date DESC. -/
def getCaseFiles (db : DB) (caseId : String) : List CaseFileRow :=
  orderFilesByUploadDateDesc (db.case_files.filter (fun f => f.case_id = caseId))

/-- ORDER BY created_date DESC over case_documents rows. -/
def orderDocsByCreatedDateDesc (rows : List CaseDocRow) : List CaseDocRow :=
  rows.mergeSort (fun a b => b.created_date ≤ a.created_date)

/-- CaseManager.get_case_documents: SELECT * FROM case_documents WHERE
case_id = ? ORDER BY created_date DESC. -/
def getCaseDocuments (db : DB) (caseId : String) : List CaseDocRow :=
  orderDocsByCreatedDateDesc (db.case_documents.filter (fun d => d.case_id = caseId))

/-- One entry of ViolationTracker.violation_categories: the statute table for
a named category. -/
structure CategoryInfo where
  federal_statutes : List String
  texas_statutes : List String
  common_violations : List String
deriving DecidableEq, Repr

/-- ViolationTracker.violation_categories, in its Python insertion order. -/
def violationCategories : List (String × CategoryInfo) :=
  [("Civil Rights",
    { federal_statutes := ["42 U.S.C. § 1983", "42 U.S.C. § 1981", "42 U.S.C. § 1985"],
      texas_statutes := ["Texas Civil Practice and Remedies Code Chapter 106"],
      common_violations := ["Due Process", "Equal Protection", "First Amendment", "Fourth Amendment"] }),
   ("Employment",
    { federal_statutes := ["Title VII", "ADA", "ADEA", "FLSA"],
      texas_statutes := ["Texas Labor Code", "Texas Commission on Human Rights Act"],
      common_violations := ["Discrimination", "Harassment", "Wage Theft", "Wrongful Termination"] }),
   ("Consumer Protection",
    { federal_statutes := ["FDCPA", "FCRA", "TCPA"],
      texas_statutes := ["Texas Deceptive Trade Practices Act", "Texas Finance Code"],
      common_violations := ["Deceptive Practices", "Debt Collection", "Credit Reporting", "Telemarketing"] }),
   ("Property Rights",
    { federal_statutes := ["Fair Housing Act", "ADA"],
      texas_statutes := ["Texas Property Code", "Texas Fair Housing Act"],
      common_violations := ["Housing Discrimination", "Landlord-Tenant", "Property Damage", "Trespass"] }),
   ("Government Accountability",
    { federal_statutes := ["42 U.S.C. § 1983", "First Amendment"],
      texas_statutes := ["Texas Government Code", "Texas Public Information Act"],
      common_violations := ["Public Records", "Open Meetings", "Government Transparency", "Official Misconduct"] })]

/-- The per-category match test of ViolationTracker._get_applicable_statutes:
violation_type.lower() in category.lower() or any common violation keyword
lowercased contained in violation_type.lower(). -/
def categoryMatches (violationType : String) (category : String) (info : CategoryInfo) : Bool :=
  substrB (pyLower violationType) (pyLower category) ||
    info.common_violations.any (fun v => substrB (pyLower v) (pyLower violationType))

/-- The first category of violation_categories whose match test succeeds for
the given violation type, if any. -/
def firstMatchingCategory (violationType : String) : Option (String × CategoryInfo) :=
  List.find? (fun ci => categoryMatches violationType ci.1 ci.2) violationCategories

/-- The AI-fallback branch of _get_applicable_statutes: scan the response line
by line keeping stripped lines where the literal substring U.S.C. occurs, or
(by Python operator precedence) both Texas and Code occur; take at most 5,
and fall back to the Research Required placeholder when none matched. -/
def extractStatutesFromAnalysis (analysis : String) : List String :=
  let lines := splitLines analysis
  let statutes := (lines.filter
    (fun line => substrB "U.S.C." line || (substrB "Texas" line && substrB "Code" line))).map
      pyStrip
  if statutes ≠ [] then statutes.take 5 else ["Research Required"]

/-- ViolationTracker._get_applicable_statutes: first try the fixed category
table; on a hit return federal_statutes ++ texas_statutes of the first
matching category; otherwise delegate to the AI collaborator (its returned
free text is the analysisResponse parameter) and extract statute lines. -/
def getApplicableStatutes (violationType description analysisResponse : String) : List String :=
  match firstMatchingCategory violationType with
  | some ci => ci.2.federal_statutes ++ ci.2.texas_statutes
  | none =>
      let _ := description
      extractStatutesFromAnalysis analysisResponse

/-- ViolationTracker.add_violation: build id viol_ plus timestamp, classify
statutes, INSERT the violations row, commit and return the id; any exception
(here: primary key collision of the generated id) is caught and an error
message string is returned in place of the id, the store left unchanged. -/
def addViolation (db : DB) (caseId : String) (violationData : Dict)
    (ts today : String) (analysisResponse : String) : String × DB :=
  let violationId := "viol_" ++ ts
  let statuteCodes := getApplicableStatutes
    (dictGet violationData "violation_type" "")
    (dictGet violationData "description" "") analysisResponse
  if db.violations.any (fun v => v.id = violationId) then
    ("Error adding violation: UNIQUE constraint failed: violations.id", db)
  else
    let row : ViolationRow :=
      { id := violationId, case_id := caseId,
        violation_type := dictGet violationData "violation_type" "",
        legal_codes := String.intercalate ", " statuteCodes,
        description := dictGet violationData "description" "",
        date_occurred := dictGet violationData "violation_date" today,
        person_involved := dictGet violationData "person_involved" "Unknown",
        damages_estimate := dictGet violationData "damages_claimed" "0.0",
        created_date := ts, last_updated := ts }
    (violationId, { db with violations := db.violations ++ [row] })

/-- ViolationTracker.add_evidence: build id evid_ plus timestamp, INSERT the
violation_evidence row, commit and return the id; any exception (primary key
collision of the generated id) is caught and an error message string is
returned in place of the id, the store left unchanged. -/
def addEvidence (db : DB) (violationId : String) (evidenceData : Dict)
    (ts : String) : String × DB :=
  let evidenceId := "evid_" ++ ts
  if db.violation_evidence.any (fun e => e.id = evidenceId) then
    ("Error adding evidence: UNIQUE constraint failed: violation_evidence.id", db)
  else
    let row : EvidenceRow :=
      { id := evidenceId, violation_id := violationId,
        evidence_type := dictGet evidenceData "evidence_type" "",
        description := dictGet evidenceData "description" "",
        file_path := dictGet evidenceData "file_path" "",
        credibility_score := dictGet evidenceData "credibility_score" "5",
        created_date := ts }
    (evidenceId, { db with violation_evidence := db.violation_evidence ++ [row] })

/-- ORDER BY date_occurred DESC over violations rows. -/
def orderViolationsByDateOccurredDesc (rows : List ViolationRow) : List ViolationRow :=
  rows.mergeSort (fun a b => b.date_occurred ≤ a.date_occurred)

/-- ORDER BY event_date (ascending) over violation_timeline rows. -/
def orderTimelineByEventDateAsc (rows : List TimelineRow) : List TimelineRow :=
  rows.mergeSort (fun a b => a.event_date ≤ b.event_date)

/-- The aggregate built per violation by ViolationTracker.get_case_violations:
the row plus its evidence and its timeline. -/
structure ViolationAgg where
  violation : ViolationRow
  evidence : List EvidenceRow
  timeline : List TimelineRow
deriving DecidableEq, Repr

/-- ViolationTracker.get_case_violations: violations of the case ORDER BY
date_occurred DESC; for each, its violation_evidence rows (no ORDER BY) and
its violation_timeline rows ORDER BY event_date. -/
def getCaseViolations (db : DB) (caseId : String) : List ViolationAgg :=
  (orderViolationsByDateOccurredDesc
      (db.violations.filter (fun v => v.case_id = caseId))).map
    (fun v =>
      { violation := v,
        evidence := db.violation_evidence.filter (fun e => e.violation_id = v.id),
        timeline := orderTimelineByEventDateAsc
          (db.violation_timeline.filter (fun t => t.violation_id = v.id)) })

/-- The id suffix computed inside the loop of create_violation_timeline:
len of the sublist of truthy events, identical on every loop iteration. -/
def timelineIdSuffix (events : List Dict) : Nat :=
  (events.filter (fun e => dictTruthy e)).length

/-- The summary dict returned by create_violation_timeline on success. -/
structure TimelineSummary where
  violation_id : String
  timeline : List TimelineRow
  total_events : Nat
  created_date : String
deriving DecidableEq, Repr

/-- Result of create_violation_timeline: the summary, or the error dict the
except branch builds when an insert raises. -/
inductive TimelineResult
  | ok (summary : TimelineSummary)
  | error (msg : String)
deriving DecidableEq, Repr

/-- The insert loop of create_violation_timeline: one INSERT per (event,
timestamp) pair, each with id tl_ plus the iteration timestamp plus the
constant suffix; a primary key collision raises out of the loop. -/
def insertTimelineEvents (rows : List TimelineRow) (violationId : String)
    (suffix : Nat) (today : String) :
    List (Dict × String) → Except String (List TimelineRow)
  | [] => Except.ok rows
  | (event, ts) :: rest =>
      let timelineId := "tl_" ++ ts ++ "_" ++ toString suffix
      if rows.any (fun r => r.id = timelineId) then
        Except.error "UNIQUE constraint failed: violation_timeline.id"
      else
        let row : TimelineRow :=
          { id := timelineId, violation_id := violationId,
            event_date := dictGet event "event_date" today,
            event_description := dictGet event "description" "",
            supporting_evidence := dictGet event "evidence" "",
            created_date := ts }
        insertTimelineEvents (rows ++ [row]) violationId suffix today rest

/-- ViolationTracker.create_violation_timeline: insert one row per event (the
timestamps list supplies the datetime.now() of each loop iteration), then
SELECT the complete timeline of the violation ORDER BY event_date and return
the summary; any exception is caught and an error result returned, the
uncommitted inserts discarded. -/
def createViolationTimeline (db : DB) (violationId : String) (events : List Dict)
    (timestamps : List String) (today now : String) : TimelineResult × DB :=
  match insertTimelineEvents db.violation_timeline violationId
      (timelineIdSuffix events) today (events.zip timestamps) with
  | Except.error e => (TimelineResult.error ("Timeline creation failed: " ++ e), db)
  | Except.ok rows =>
      let timeline := orderTimelineByEventDateAsc
        (rows.filter (fun t => t.violation_id = violationId))
      (TimelineResult.ok
        { violation_id := violationId, timeline := timeline,
          total_events := timeline.length, created_date := now },
       { db with violation_timeline := rows })

/-- LegalAuthority._calculate_relevance: falsy query or text scores 0; else
split both into lowercase whitespace tokens as sets, score is the count of
common tokens divided by the count of query tokens, passed through
min(relevance, 1.0).  Python floats are modelled as rationals. -/
def calculateRelevance (query text : String) : ℚ :=
  if query = "" ∨ text = "" then 0
  else
    let queryWords := (pySplit (pyLower query)).dedup
    let textWords := (pySplit (pyLower text)).dedup
    if queryWords.isEmpty then 0
    else
      let commonWords := queryWords.filter (fun w => w ∈ textWords)
      min ((commonWords.length : ℚ) / (queryWords.length : ℚ)) 1

/-- Modelled from the spec wording of the relevance scoring contract, for
comparison with calculateRelevance: token sets as Finsets, score equal to
the cardinality of the intersection of query and summary token sets divided
by the cardinality of the query token set, clamped to at most 1, and 0 when
query or summary is empty or the query has no tokens. -/
def relevanceSpec (query summary : String) : ℚ :=
  if query = "" ∨ summary = "" ∨ (pySplit (pyLower query)).toFinset = ∅ then 0
  else
    min
      (((((pySplit (pyLower query)).toFinset ∩ (pySplit (pyLower summary)).toFinset).card : ℚ)) /
        (((pySplit (pyLower query)).toFinset.card : ℚ))) 1

/-- Column list of the legal_authorities table that is live at run time: the
one created by Database._create_all_tables, which runs before
LegalAuthority.ensure_tables (whose CREATE TABLE IF NOT EXISTS is then a
no-op).  From database.py. -/
def legalAuthoritiesLiveColumns : List String :=
  ["id", "citation", "title", "court", "year", "summary", "full_text",
   "verification_status", "verification_date", "source_url", "authority_type",
   "jurisdiction", "created_date", "relevance_score", "usage_count"]

/-- Column list named by the INSERT OR REPLACE INTO legal_authorities
statement of LegalAuthority._add_authority_to_database. -/
def addAuthorityInsertColumns : List String :=
  ["id", "citation", "title", "summary", "source_url", "verification_status",
   "authority_type", "jurisdiction", "relevance_score", "last_verified",
   "created_date"]

/-- The INSERT OR REPLACE against the live legal_authorities table: sqlite3
first resolves the column names of the statement against the table schema
and raises OperationalError when one does not exist; only then would the
upsert semantics (replace any row conflicting on the UNIQUE citation or on
the primary key) apply. -/
def insertOrReplaceAuthority (rows : List AuthorityRow) (row : AuthorityRow) :
    Except String (List AuthorityRow) :=
  if addAuthorityInsertColumns.all (fun c => c ∈ legalAuthoritiesLiveColumns) then
    Except.ok ((rows.filter (fun x => ¬ x.citation = row.citation ∧ ¬ x.id = row.id)) ++ [row])
  else
    Except.error "table legal_authorities has no column named last_verified"

/-- LegalAuthority._add_authority_to_database: build the row from the
authority dict (ts is the datetime.now() of the call, used for the generated
id, last_verified and created_date), run the INSERT OR REPLACE, commit; the
bare except silently swallows any database error, leaving the store as it
was. -/
def addAuthorityToDatabase (db : DB) (authority : Dict) (ts : String) : DB :=
  let row : AuthorityRow :=
    { id := "auth_" ++ ts,
      citation := dictGet authority "citation" "",
      title := dictGet authority "title" "",
      summary := dictGet authority "summary" "",
      source_url := dictGet authority "source_url" "",
      verification_status :=
        if dictGet authority "verified" "" = "True" then "verified" else "unverified",
      authority_type := dictGet authority "authority_type" "Case Law",
      jurisdiction := dictGet authority "jurisdiction" "Unknown",
      relevance_score := dictGet authority "relevance_score" "0.5",
      last_verified := ts, created_date := ts }
  match insertOrReplaceAuthority db.legal_authorities row with
  | Except.ok rows => { db with legal_authorities := rows }
  | Except.error _ => db

/-- One site in the source where repository or store code reaches the shared
SQLite connection: the calling method and the Database accessor it goes
through. -/
structure ConnAccess where
  caller : String
  accessor : String
deriving DecidableEq, Repr

/-- Which Database methods hold the exclusive threading.Lock for the duration
of the connection access, read off from the with self underscore lock blocks
in database.py.  get_cursor returns connection.cursor() without touching the
lock, so statements executed on that cursor run unlocked. -/
def accessorHoldsLock : String → Bool
  | "execute_query" => true
  | "execute_update" => true
  | "execute_many" => true
  | "commit" => true
  | "rollback" => true
  | "get_transaction" => true
  | "backup_database" => true
  | "restore_database" => true
  | "optimize_database" => true
  | "get_cursor" => false
  | _ => false

/-- The connection accesses performed by the repository modules, each through
Database.get_cursor (every one of these methods starts with
cursor = self.db.get_cursor() and then calls cursor.execute directly). -/
def repositoryConnAccesses : List ConnAccess :=
  [{ caller := "CaseManager.get_case", accessor := "get_cursor" },
   { caller := "CaseManager.get_all_cases", accessor := "get_cursor" },
   { caller := "CaseManager.create_case", accessor := "get_cursor" },
   { caller := "CaseManager.update_case", accessor := "get_cursor" },
   { caller := "CaseManager.delete_case", accessor := "get_cursor" },
   { caller := "CaseManager.add_file_to_case", accessor := "get_cursor" },
   { caller := "CaseManager.get_case_files", accessor := "get_cursor" },
   { caller := "CaseManager.add_document_to_case", accessor := "get_cursor" },
   { caller := "CaseManager.get_case_documents", accessor := "get_cursor" },
   { caller := "CaseManager.search_cases", accessor := "get_cursor" },
   { caller := "CaseManager.get_case_statistics", accessor := "get_cursor" },
   { caller := "ViolationTracker.add_violation", accessor := "get_cursor" },
   { caller := "ViolationTracker.get_case_violations", accessor := "get_cursor" },
   { caller := "ViolationTracker.calculate_damages", accessor := "get_cursor" },
   { caller := "ViolationTracker.add_evidence", accessor := "get_cursor" },
   { caller := "ViolationTracker.create_violation_timeline", accessor := "get_cursor" },
   { caller := "ViolationTracker.search_violations", accessor := "get_cursor" },
   { caller := "LegalAuthority.verify_citation", accessor := "get_cursor" },
   { caller := "LegalAuthority._search_local_database", accessor := "get_cursor" },
   { caller := "LegalAuthority._add_authority_to_database", accessor := "get_cursor" }]

/-- A connection access runs under mutual exclusion exactly when its Database
accessor holds the lock. -/
def accessUnderLock (a : ConnAccess) : Bool :=
  accessorHoldsLock a.accessor

/-- An empty store, used for concrete evaluations. -/
def dbEmpty : DB := ⟨[], [], [], [], [], [], []⟩

/-- Helper: searching by q in a list filtered to the negation of q finds
nothing. -/
theorem find?_filter_neg {α : Type} (l : List α) (q : α → Prop) [DecidablePred q] :
    List.find? (fun a => q a) (l.filter (fun a => ¬ q a)) = none := by
  rw [List.find?_eq_none]
  intro x hx
  have hx2 : ¬ q x := by simpa using (List.mem_filter.mp hx).2
  simpa using hx2

/-- Helper: filtering by q after filtering by the negation of q is empty. -/
theorem filter_filter_neg {α : Type} (l : List α) (q : α → Prop) [DecidablePred q] :
    (l.filter (fun a => ¬ q a)).filter (fun a => q a) = [] := by
  rw [List.filter_eq_nil_iff]
  intro a ha
  have h2 : ¬ q a := by simpa using (List.mem_filter.mp ha).2
  simpa using h2

/-- Helper: every element surviving a filter by the negation of q satisfies
the negation of q. -/
theorem all_filter_neg {α : Type} (l : List α) (q : α → Prop) [DecidablePred q] :
    (l.filter (fun a => ¬ q a)).all (fun a => ¬ q a) = true := by
  rw [List.all_eq_true]
  intro x hx
  exact (List.mem_filter.mp hx).2

/-- Helper: the store returned by deleteCase, spelled out. -/
theorem deleteCase_snd (db : DB) (caseId : String) :
    (deleteCase db caseId).2 =
      { db with
        cases := db.cases.filter (fun c => ¬ c.id = caseId),
        case_files := db.case_files.filter (fun f => ¬ f.case_id = caseId),
        case_documents := db.case_documents.filter (fun d => ¬ d.case_id = caseId) } := rfl

/-- Helper: the flag returned by deleteCase, spelled out. -/
theorem deleteCase_fst (db : DB) (caseId : String) :
    (deleteCase db caseId).1 =
      decide (0 < (db.cases.filter (fun c => c.id = caseId)).length) := rfl

/-- C1: deleting a case removes the cases row and every case_files and
case_documents row owned by it, so that get_case returns None and neither
get_case_files, get_case_documents nor any remaining table row can reach a
file or document previously owned by the deleted case. -/
theorem claim_C1_cascade_delete (db : DB) (caseId : String) :
    getCase (deleteCase db caseId).2 caseId = none ∧
    getCaseFiles (deleteCase db caseId).2 caseId = [] ∧
    getCaseDocuments (deleteCase db caseId).2 caseId = [] ∧
    (deleteCase db caseId).2.cases.all (fun c => ¬ c.id = caseId) = true ∧
    (deleteCase db caseId).2.case_files.all (fun f => ¬ f.case_id = caseId) = true ∧
    (deleteCase db caseId).2.case_documents.all (fun d => ¬ d.case_id = caseId) = true := by
  rw [deleteCase_snd]
  refine ⟨?_, ?_, ?_, ?_, ?_, ?_⟩
  · unfold getCase
    rw [find?_filter_neg]
  · unfold getCaseFiles orderFilesByUploadDateDesc
    rw [filter_filter_neg]
    exact List.mergeSort_nil
  · unfold getCaseDocuments orderDocsByCreatedDateDesc
    rw [filter_filter_neg]
    exact List.mergeSort_nil
  · exact all_filter_neg db.cases (fun c => c.id = caseId)
  · exact all_filter_neg db.case_files (fun f => f.case_id = caseId)
  · exact all_filter_neg db.case_documents (fun d => d.case_id = caseId)

/-- C10: the flag returned by delete_case is the rowcount of the final DELETE
on the cases table only: it is true exactly when a cases row with that id
existed, and the case_files and case_documents rows with that case_id are
removed by the same call whether or not the flag is true. -/
theorem claim_C10_delete_flag (db : DB) (caseId : String) :
    ((deleteCase db caseId).1 = true ↔ ∃ c ∈ db.cases, c.id = caseId) ∧
    (deleteCase db caseId).2.case_files =
      db.case_files.filter (fun f => ¬ f.case_id = caseId) ∧
    (deleteCase db caseId).2.case_documents =
      db.case_documents.filter (fun d => ¬ d.case_id = caseId) := by
  refine ⟨?_, ?_, ?_⟩
  · rw [deleteCase_fst]
    simp only [decide_eq_true_eq, List.length_pos_iff_exists_mem]
    constructor
    · rintro ⟨c, hc⟩
      have := List.mem_filter.mp hc
      exact ⟨c, this.1, by simpa using this.2⟩
    · rintro ⟨c, hc, hid⟩
      exact ⟨c, List.mem_filter.mpr ⟨hc, by simpa using hid⟩⟩
  · rw [deleteCase_snd]
  · rw [deleteCase_snd]

/-- C4 counterexample: against a store with no cases at all, add_file_to_case
succeeds, returns the fresh file id and inserts a case_files row whose
case_id references no existing case, instead of failing with NotFound. -/
theorem claim_C4_counterexample :
    dbEmpty.cases = [] ∧
    addFileToCase dbEmpty "c1" "evidence.pdf" "pdf" 100 none "fid1" "t1" "t2" =
      Except.ok ("fid1",
        { dbEmpty with
          case_files := [{ id := "fid1", case_id := "c1", filename := "evidence.pdf",
                           file_type := "pdf", file_size := 100, upload_date := "t1",
                           file_path := none, analysis_data := emptyJsonObject }] }) := by
  exact ⟨rfl, rfl⟩

/-- C4 amended: add_file_to_case performs no existence check on the parent
case: for any store and any case_id, as long as the generated file id is
fresh, it inserts the case_files row (dangling if the case is absent),
stamps last_modified on whatever cases rows match the id, and returns the
file id rather than NotFound. -/
theorem claim_C4_no_existence_check (db : DB) (caseId filename fileType : String)
    (fileSize : Int) (filePath : Option String) (fileId uploadTs modifiedTs : String)
    (hfresh : ∀ f ∈ db.case_files, ¬ f.id = fileId) :
    addFileToCase db caseId filename fileType fileSize filePath fileId uploadTs modifiedTs =
      Except.ok (fileId,
        { db with
          case_files := db.case_files ++
            [{ id := fileId, case_id := caseId, filename := filename,
               file_type := fileType, file_size := fileSize, upload_date := uploadTs,
               file_path := filePath, analysis_data := emptyJsonObject }],
          cases := db.cases.map
            (fun c => if c.id = caseId then { c with last_modified := modifiedTs } else c) }) := by
  unfold addFileToCase
  rw [if_neg]
  intro hany
  obtain ⟨f, hf, hfid⟩ := List.any_eq_true.mp hany
  exact hfresh f hf (by simpa using hfid)

/-- C4 witness: the amended theorem applied at a concrete input. -/
theorem claim_C4_witness :
    addFileToCase dbEmpty "c9" "w.txt" "txt" 7 none "fidw" "t1" "t2" =
      Except.ok ("fidw",
        { dbEmpty with
          case_files := [{ id := "fidw", case_id := "c9", filename := "w.txt",
                           file_type := "txt", file_size := 7, upload_date := "t1",
                           file_path := none, analysis_data := emptyJsonObject }],
          cases := [] }) := by
  have h := claim_C4_no_existence_check dbEmpty "c9" "w.txt" "txt" 7 none "fidw" "t1" "t2"
    (by simp [dbEmpty])
  simpa [dbEmpty] using h

/-- A store already holding a violation whose id carries the timestamp
20250101_120000, so that a second add_violation in the same second collides. -/
def dbWithViol : DB :=
  { dbEmpty with
    violations := [{ id := "viol_20250101_120000", case_id := "c0",
                     violation_type := "", legal_codes := "", description := "",
                     date_occurred := "", person_involved := "", damages_estimate := "",
                     created_date := "", last_updated := "" }] }

/-- A store already holding an evidence row whose id carries the timestamp
20250101_120000, so that a second add_evidence in the same second collides. -/
def dbWithEvid : DB :=
  { dbEmpty with
    violation_evidence := [{ id := "evid_20250101_120000", violation_id := "v0",
                             evidence_type := "", description := "", file_path := "",
                             credibility_score := "", created_date := "" }] }

/-- C5 counterexample: when the underlying insert fails (here a primary key
collision of the generated id), add_violation and add_evidence do not raise:
they return the interpolated error message string through the same channel
that carries the new entity id on success, leaving the caller with a string
that is indistinguishable in type from an id. -/
theorem claim_C5_counterexample :
    (addViolation dbWithViol "c1" [] "20250101_120000" "2025-01-01" "").1 =
      "Error adding violation: UNIQUE constraint failed: violations.id" ∧
    (addViolation dbWithViol "c1" [] "20250101_120000" "2025-01-01" "").2 = dbWithViol ∧
    (addViolation dbEmpty "c1" [] "20250101_120000" "2025-01-01" "").1 =
      "viol_20250101_120000" ∧
    (addEvidence dbWithEvid "v1" [] "20250101_120000").1 =
      "Error adding evidence: UNIQUE constraint failed: violation_evidence.id" ∧
    (addEvidence dbWithEvid "v1" [] "20250101_120000").2 = dbWithEvid := by
  refine ⟨rfl, rfl, rfl, rfl, rfl⟩

/-- C5 amended: on a storage failure during the insert, add_violation and
add_evidence swallow the exception and return the error message string in
place of the new entity id, with the store left unchanged; the failure is
not signalled to the caller in any other way. -/
theorem claim_C5_error_string_swallowed (db : DB) (caseId violationId : String)
    (violationData evidenceData : Dict) (ts today analysisResponse : String) :
    (db.violations.any (fun v => v.id = "viol_" ++ ts) = true →
      addViolation db caseId violationData ts today analysisResponse =
        ("Error adding violation: UNIQUE constraint failed: violations.id", db)) ∧
    (db.violation_evidence.any (fun e => e.id = "evid_" ++ ts) = true →
      addEvidence db violationId evidenceData ts =
        ("Error adding evidence: UNIQUE constraint failed: violation_evidence.id", db)) := by
  constructor
  · intro h
    unfold addViolation
    rw [if_pos h]
  · intro h
    unfold addEvidence
    rw [if_pos h]

/-- C5 witness: the amended theorem applied at a concrete colliding input. -/
theorem claim_C5_witness :
    addViolation dbWithViol "c1" [] "20250101_120000" "2025-01-01" "" =
      ("Error adding violation: UNIQUE constraint failed: violations.id", dbWithViol) ∧
    addEvidence dbWithEvid "v1" [] "20250101_120000" =
      ("Error adding evidence: UNIQUE constraint failed: violation_evidence.id", dbWithEvid) := by
  have h := claim_C5_error_string_swallowed dbWithViol "c1" "v1" [] [] "20250101_120000"
    "2025-01-01" ""
  have h2 := claim_C5_error_string_swallowed dbWithEvid "c1" "v1" [] [] "20250101_120000"
    "2025-01-01" ""
  exact ⟨h.1 (by decide), h2.2 (by decide)⟩

/-- C2: against the legal_authorities table that is live at run time (created
by Database._create_all_tables before LegalAuthority.ensure_tables runs),
the INSERT OR REPLACE of _add_authority_to_database names the column
last_verified, which that table does not have, so sqlite3 raises and the
bare except swallows it: storing the same citation twice through the
verified-citation upsert path leaves zero rows with that citation, not one
row carrying the second summary. -/
theorem claim_C2_upsert_never_stores :
    ("last_verified" ∈ addAuthorityInsertColumns ∧
      ¬ "last_verified" ∈ legalAuthoritiesLiveColumns) ∧
    (addAuthorityToDatabase
        (addAuthorityToDatabase dbEmpty
          [("citation", "Smith v. Jones"), ("summary", "A"), ("verified", "True")]
          "20250101_120000")
        [("citation", "Smith v. Jones"), ("summary", "B"), ("verified", "True")]
        "20250102_120000").legal_authorities.filter
      (fun r => r.citation = "Smith v. Jones") = [] ∧
    (addAuthorityToDatabase
        (addAuthorityToDatabase dbEmpty
          [("citation", "Smith v. Jones"), ("summary", "A"), ("verified", "True")]
          "20250101_120000")
        [("citation", "Smith v. Jones"), ("summary", "B"), ("verified", "True")]
        "20250102_120000") = dbEmpty := by
  refine ⟨⟨by decide, by decide⟩, by decide, by decide⟩

/-- The two events of the C7 failing input, non-empty dicts both. -/
def eventsC7 : List Dict :=
  [[("event_date", "2025-01-01"), ("description", "first")],
   [("event_date", "2025-01-02"), ("description", "second")]]

/-- C7: the id generated for each timeline row is tl_ plus the timestamp of
the loop iteration plus len of the truthy events of the WHOLE list, a value
identical for every iteration; when two events are inserted within the same
second the two generated ids are equal, the second INSERT violates the
primary key of violation_timeline, and create_violation_timeline returns the
error dict instead of one row per supplied event. -/
theorem claim_C7_id_collision :
    timelineIdSuffix eventsC7 = 2 ∧
    (createViolationTimeline dbEmpty "v1" eventsC7
        ["20250101_120000", "20250101_120000"] "2025-01-03" "T").1 =
      TimelineResult.error
        "Timeline creation failed: UNIQUE constraint failed: violation_timeline.id" ∧
    (createViolationTimeline dbEmpty "v1" eventsC7
        ["20250101_120000", "20250101_120000"] "2025-01-03" "T").2 = dbEmpty := by
  refine ⟨rfl, rfl, rfl⟩

/-- C9: the repository modules reach the shared connection exclusively
through Database.get_cursor, which returns connection.cursor() without
acquiring the exclusive lock; only the execute_query, execute_update,
execute_many, commit, rollback and get_transaction accessors hold it, so it
is false that every query and update acquires the lock for the duration of
its call. -/
theorem claim_C9_unlocked_access :
    accessorHoldsLock "execute_query" = true ∧
    accessorHoldsLock "execute_update" = true ∧
    accessorHoldsLock "execute_many" = true ∧
    accessorHoldsLock "get_cursor" = false ∧
    ConnAccess.mk "CaseManager.add_file_to_case" "get_cursor" ∈ repositoryConnAccesses ∧
    accessUnderLock (ConnAccess.mk "CaseManager.add_file_to_case" "get_cursor") = false ∧
    repositoryConnAccesses.all accessUnderLock = false := by
  refine ⟨rfl, rfl, rfl, rfl, by decide, rfl, by decide⟩

/-- C6 counterexample: the violation type Civil Rights Violation contains the
category name Civil Rights case-insensitively, so the claim predicts a table
match returning the Civil Rights statutes; but the code tests containment in
the opposite direction (violation type inside category name), no category
matches, and the classifier falls through to the external path, here
returning the Research Required placeholder without 42 U.S.C. § 1983. -/
theorem claim_C6_counterexample :
    substrB (pyLower "Civil Rights") (pyLower "Civil Rights Violation") = true ∧
    firstMatchingCategory "Civil Rights Violation" = none ∧
    getApplicableStatutes "Civil Rights Violation" "unlawful search" "" =
      ["Research Required"] ∧
    ¬ "42 U.S.C. § 1983" ∈ getApplicableStatutes "Civil Rights Violation" "unlawful search" "" := by
  refine ⟨by decide, by decide, by decide, by decide⟩

/-- C6 amended: the fixed-table branch fires when the violation type is
contained case-insensitively in the category name (the reverse of the
direction the claim states) OR one of the common-violation keywords of the
category is contained case-insensitively in the violation type; the first
matching category in table order wins, its federal statutes followed by its
Texas statutes are returned, and the result is independent of the external
collaborator response, hence computed without any external call.  The
violation type Fourth Amendment Violation still matches Civil Rights via the
Fourth Amendment keyword and yields a list including 42 U.S.C. § 1983. -/
theorem claim_C6_table_match (violationType desc1 desc2 ai1 ai2 : String)
    (category : String) (info : CategoryInfo)
    (hmatch : firstMatchingCategory violationType = some (category, info)) :
    getApplicableStatutes violationType desc1 ai1 =
      info.federal_statutes ++ info.texas_statutes ∧
    getApplicableStatutes violationType desc1 ai1 =
      getApplicableStatutes violationType desc2 ai2 := by
  unfold getApplicableStatutes
  rw [hmatch]
  exact ⟨rfl, rfl⟩

/-- C6 witness: the amended theorem applied to the Fourth Amendment scenario
of the specification. -/
theorem claim_C6_witness :
    getApplicableStatutes "Fourth Amendment Violation" "unlawful search" "some AI text" =
      ["42 U.S.C. § 1983", "42 U.S.C. § 1981", "42 U.S.C. § 1985",
       "Texas Civil Practice and Remedies Code Chapter 106"] ∧
    "42 U.S.C. § 1983" ∈
      getApplicableStatutes "Fourth Amendment Violation" "unlawful search" "some AI text" := by
  have h := claim_C6_table_match "Fourth Amendment Violation" "unlawful search" "d2"
    "some AI text" "a2" "Civil Rights"
    { federal_statutes := ["42 U.S.C. § 1983", "42 U.S.C. § 1981", "42 U.S.C. § 1985"],
      texas_statutes := ["Texas Civil Practice and Remedies Code Chapter 106"],
      common_violations := ["Due Process", "Equal Protection", "First Amendment", "Fourth Amendment"] }
    (by decide)
  refine ⟨h.1, ?_⟩
  rw [h.1]
  decide

/-- Helper: mergeSort with a decidable total preorder yields a pairwise
ordered list. -/
theorem pairwise_mergeSort_rel {α : Type} (r : α → α → Prop) [DecidableRel r]
    (htrans : ∀ a b c, r a b → r b c → r a c)
    (htotal : ∀ a b, r a b ∨ r b a) (l : List α) :
    List.Pairwise r (l.mergeSort (fun a b => r a b)) := by
  have h := @List.sorted_mergeSort α (fun a b => decide (r a b))
    (fun a b c hab hbc =>
      decide_eq_true (htrans a b c (of_decide_eq_true hab) (of_decide_eq_true hbc)))
    (fun a b => by
      rcases htotal a b with h | h
      · simp [h]
      · simp [h]) l
  exact h.imp (fun hab => of_decide_eq_true hab)

/-- C8: get_all_cases returns exactly the cases rows sorted by last_modified
descending, and get_case_violations returns exactly the violations of the
case sorted by date_occurred descending, each aggregate carrying its
timeline rows sorted by event_date ascending. -/
theorem claim_C8_ordering (db : DB) (caseId : String) :
    List.Pairwise (fun a b => b.last_modified ≤ a.last_modified) (getAllCases db) ∧
    (getAllCases db).Perm db.cases ∧
    List.Pairwise (fun a b => b.violation.date_occurred ≤ a.violation.date_occurred)
      (getCaseViolations db caseId) ∧
    ((getCaseViolations db caseId).map (fun agg => agg.violation)).Perm
      (db.violations.filter (fun v => v.case_id = caseId)) ∧
    List.Forall
      (fun agg => List.Pairwise (fun a b => a.event_date ≤ b.event_date) agg.timeline)
      (getCaseViolations db caseId) := by
  refine ⟨?_, ?_, ?_, ?_, ?_⟩
  · unfold getAllCases orderCasesByLastModifiedDesc
    exact pairwise_mergeSort_rel (fun a b => b.last_modified ≤ a.last_modified)
      (fun a b c hab hbc => le_trans hbc hab)
      (fun a b => le_total b.last_modified a.last_modified) db.cases
  · unfold getAllCases orderCasesByLastModifiedDesc
    exact List.mergeSort_perm db.cases _
  · unfold getCaseViolations orderViolationsByDateOccurredDesc
    refine List.Pairwise.map _ (fun a b hab => hab) ?_
    exact pairwise_mergeSort_rel (fun a b : ViolationRow => b.date_occurred ≤ a.date_occurred)
      (fun a b c hab hbc => le_trans hbc hab)
      (fun a b => le_total b.date_occurred a.date_occurred) _
  · unfold getCaseViolations orderViolationsByDateOccurredDesc
    rw [List.map_map]
    have hmap : ((db.violations.filter (fun v => v.case_id = caseId)).mergeSort
        (fun a b => b.date_occurred ≤ a.date_occurred)).map
          ((fun agg => agg.violation) ∘
            (fun v => ViolationAgg.mk v
              (db.violation_evidence.filter (fun e => e.violation_id = v.id))
              (orderTimelineByEventDateAsc
                (db.violation_timeline.filter (fun t => t.violation_id = v.id))))) =
        (db.violations.filter (fun v => v.case_id = caseId)).mergeSort
          (fun a b => b.date_occurred ≤ a.date_occurred) := by
      rw [show ((fun agg => ViolationAgg.violation agg) ∘
        (fun v => ViolationAgg.mk v
          (db.violation_evidence.filter (fun e => e.violation_id = v.id))
          (orderTimelineByEventDateAsc
            (db.violation_timeline.filter (fun t => t.violation_id = v.id))))) =
        (fun v => v) from rfl]
      exact List.map_id _
    rw [hmap]
    exact List.mergeSort_perm _ _
  · rw [List.forall_iff_forall_mem]
    intro agg hagg
    unfold getCaseViolations at hagg
    obtain ⟨v, hv, rfl⟩ := List.mem_map.mp hagg
    unfold orderTimelineByEventDateAsc
    exact pairwise_mergeSort_rel (fun a b : TimelineRow => a.event_date ≤ b.event_date)
      (fun a b c hab hbc => le_trans hab hbc)
      (fun a b => le_total a.event_date b.event_date) _

/-- Helper: deduplication does not change the Finset of a list. -/
theorem dedup_toFinset {α : Type} [DecidableEq α] (l : List α) :
    l.dedup.toFinset = l.toFinset := by
  ext a
  simp [List.mem_toFinset, List.mem_dedup]

/-- Helper: the common-word count of _calculate_relevance equals the card of
the intersection of the two token Finsets. -/
theorem commonWords_length_eq (ql tl : List String) :
    (ql.dedup.filter (fun w => w ∈ tl.dedup)).length =
      (ql.toFinset ∩ tl.toFinset).card := by
  have h1 : ql.dedup.filter (fun w => w ∈ tl.dedup) =
      ql.dedup.filter (fun w => w ∈ tl.toFinset) := by
    apply List.filter_congr
    intro x _
    simp [List.mem_dedup, List.mem_toFinset]
  have h2 : (ql.dedup.filter (fun w => w ∈ tl.toFinset)).toFinset.card =
      (ql.dedup.filter (fun w => w ∈ tl.toFinset)).length :=
    List.toFinset_card_of_nodup ((List.nodup_dedup ql).filter _)
  have h3 : (ql.dedup.filter (fun w => w ∈ tl.toFinset)).toFinset =
      ql.toFinset ∩ tl.toFinset := by
    ext a
    simp [List.mem_toFinset, List.mem_filter, List.mem_dedup, Finset.mem_inter]
  rw [h1, ← h2, h3]

/-- C3: the computed relevance score equals the spec formula (intersection of
lowercase whitespace token sets over query token count, clamped at 1), it
always lies in the closed interval from 0 to 1, and it is 0 whenever the
query or the summary is the empty string. -/
theorem claim_C3_relevance (query text : String) :
    calculateRelevance query text = relevanceSpec query text ∧
    0 ≤ calculateRelevance query text ∧
    calculateRelevance query text ≤ 1 ∧
    ((query = "" ∨ text = "") → calculateRelevance query text = 0) := by
  have hmain : calculateRelevance query text = relevanceSpec query text := by
    unfold calculateRelevance relevanceSpec
    by_cases h : query = "" ∨ text = ""
    · rw [if_pos h, if_pos]
      rcases h with h | h
      · exact Or.inl h
      · exact Or.inr (Or.inl h)
    · rw [if_neg h]
      dsimp only
      by_cases hq : pySplit (pyLower query) = []
      · rw [if_pos, if_pos]
        · exact Or.inr (Or.inr (by rw [hq]; rfl))
        · rw [hq]
          rfl
      · rw [if_neg, if_neg]
        · rw [commonWords_length_eq, List.card_toFinset]
        · intro hc
          rcases hc with hc | hc | hc
          · exact h (Or.inl hc)
          · exact h (Or.inr hc)
          · exact hq ((List.toFinset_eq_empty_iff _).mp hc)
        · intro hc
          rw [List.isEmpty_iff] at hc
          exact hq (by simpa using hc)
  have hb0 : 0 ≤ relevanceSpec query text := by
    unfold relevanceSpec
    split
    · exact le_refl 0
    · exact le_min (div_nonneg (Nat.cast_nonneg _) (Nat.cast_nonneg _)) zero_le_one
  have hb1 : relevanceSpec query text ≤ 1 := by
    unfold relevanceSpec
    split
    · exact zero_le_one
    · exact min_le_right _ _
  refine ⟨hmain, hmain ▸ hb0, hmain ▸ hb1, ?_⟩
  intro h
  rw [hmain]
  unfold relevanceSpec
  rw [if_pos]
  rcases h with h | h
  · exact Or.inl h
  · exact Or.inr (Or.inl h)

/-- C3 witness: the claim theorem applied at concrete inputs, including the
qualified immunity scenario of the specification. -/
theorem claim_C3_witness :
    calculateRelevance "" "addresses qualified immunity standard" = 0 ∧
    0 ≤ calculateRelevance "qualified immunity" "addresses qualified immunity standard" ∧
    calculateRelevance "qualified immunity" "addresses qualified immunity standard" ≤ 1 := by
  refine ⟨?_, ?_, ?_⟩
  · exact (claim_C3_relevance "" "addresses qualified immunity standard").2.2.2 (Or.inl rfl)
  · exact (claim_C3_relevance "qualified immunity" "addresses qualified immunity standard").2.1
  · exact (claim_C3_relevance "qualified immunity" "addresses qualified immunity standard").2.2.1
